import Mathlib

/-!
Verification of the foodmonitor backend telemetry relay.

Shallow embedding of the Node.js backend:
  * `storage/data.store.js`   — bounded in-memory history store (ring buffer)
  * `websocket/ws.server.js`  — WebSocket hub (register, message, close, broadcast)
  * `services/sensor.service.js` — ingestion business logic (`handleSensorData`)
  * `routes/sensor.routes.js` — the `POST /api/sensor/data` endpoint

JavaScript objects are modelled with explicit structures; machine state that
the handlers mutate (the store, the CSV log, the connected-client set) is
threaded explicitly.  Field values of a submitted JSON record are modelled by
`JVal`, with `Option` marking field presence (`field in sensorData`).
-/

/-- A JSON-ish field value, enough to distinguish well-formed from malformed
payload values (numbers vs strings vs null vs booleans). -/
inductive JVal where
  | num (n : Int)
  | str (s : String)
  | null
  | bool (b : Bool)
deriving DecidableEq, Repr

/-- JavaScript truthiness of a `JVal` (used by `if (!sensorData.timestamp)`). -/
def JVal.truthy : JVal → Bool
  | JVal.num n => n ≠ 0
  | JVal.str s => s ≠ ""
  | JVal.null => false
  | JVal.bool b => b

/-- A submitted sensor record (`req.body` of `POST /api/sensor/data`).
Each field is `Option`al: `none` models the key being absent from the JSON
object, `some v` models the key present with value `v`.  The optional raw ADC
channels (`adc_gas`, `adc_temp`, `adc_hum`) are never validated or inspected
by the backend and are omitted. -/
structure SensorRecord where
  timestamp : Option JVal
  sensor_sn : Option JVal
  ppb : Option JVal
  temperature : Option JVal
  humidity : Option JVal
deriving DecidableEq, Repr

/-- `routes/sensor.routes.js`: the required-field list
`['timestamp', 'sensor_sn', 'ppb', 'temperature', 'humidity']`. -/
def requiredFields : List String :=
  ["timestamp", "sensor_sn", "ppb", "temperature", "humidity"]

/-- `field in sensorData` — key presence on the record. -/
def hasField (r : SensorRecord) : String → Bool
  | "timestamp" => r.timestamp.isSome
  | "sensor_sn" => r.sensor_sn.isSome
  | "ppb" => r.ppb.isSome
  | "temperature" => r.temperature.isSome
  | "humidity" => r.humidity.isSome
  | _ => false

/-- `requiredFields.filter(field => !(field in sensorData))` — every missing
required field, in the order of `requiredFields`. -/
def missingFields (r : SensorRecord) : List String :=
  requiredFields.filter (fun f => !(hasField r f))

/-! ## storage/data.store.js -/

/-- `dataStore.metadata`. -/
structure StoreMetadata where
  initialized : Option String
  totalReadingsReceived : Nat
deriving DecidableEq, Repr

/-- The in-memory data store: `readings` oldest-first plus metadata. -/
structure DataStore where
  readings : List SensorRecord
  metadata : StoreMetadata
deriving DecidableEq, Repr

/-- `const MAX_READINGS = 10000`. -/
def MAX_READINGS : Nat := 10000

/-- The module-initial store: `readings: [], metadata: (null, 0)`. -/
def emptyDataStore : DataStore :=
  { readings := [], metadata := { initialized := none, totalReadingsReceived := 0 } }

/-- `initializeStorage()`: stamps `metadata.initialized` with the current
instant (passed explicitly as `t`). -/
def initializeStorage (t : String) (s : DataStore) : DataStore :=
  { s with metadata := { s.metadata with initialized := some t } }

/-- `addReading(reading)` with the capacity as an explicit parameter
(the source fixes it to the module constant `MAX_READINGS`): push the reading,
increment `totalReadingsReceived`, then if the length exceeds the capacity,
`shift()` the oldest reading off the front. -/
def addReadingWith (maxReadings : Nat) (reading : SensorRecord) (s : DataStore) : DataStore :=
  let pushed := s.readings ++ [reading]
  let meta :=
    { s.metadata with totalReadingsReceived := s.metadata.totalReadingsReceived + 1 }
  if pushed.length > maxReadings then
    { readings := pushed.drop 1, metadata := meta }
  else
    { readings := pushed, metadata := meta }

/-- `addReading(reading)` at the source's capacity `MAX_READINGS`. -/
def addReading : SensorRecord → DataStore → DataStore :=
  addReadingWith MAX_READINGS

/-- `getAllReadings()`: a copy of the readings array. -/
def getAllReadings (s : DataStore) : List SensorRecord :=
  s.readings

/-- `getLatestReading()`: `null` on an empty store, last element otherwise. -/
def getLatestReading (s : DataStore) : Option SensorRecord :=
  if s.readings.length = 0 then none
  else s.readings.getLast?

/-- `clearReadings()`: empties the readings array, touching nothing else. -/
def clearReadings (s : DataStore) : DataStore :=
  { s with readings := [] }

/-- A fresh initialized store after appending the readings `rs` in order,
at capacity `cap` (process start = `initializeStorage`, then one
`addReading` per arriving reading). -/
def runStoreWith (cap : Nat) (t : String) (rs : List SensorRecord) : DataStore :=
  rs.foldl (fun s r => addReadingWith cap r s) (initializeStorage t emptyDataStore)

/-! ## websocket/ws.server.js -/

/-- WebSocket `readyState` constants of the `ws` library. -/
inductive ReadyState where
  | CONNECTING
  | OPEN
  | CLOSING
  | CLOSED
deriving DecidableEq, Repr

/-- A message pushed to a client: `type` tag, optional reading payload
(`data`, present for `sensor_reading` messages) and a server timestamp. -/
structure WsPayload where
  type : String
  data : Option SensorRecord
  timestamp : String
deriving DecidableEq, Repr

/-- A connected WebSocket client: an identity, its connection `readyState`,
whether `client.send` throws (a broken socket), and the messages it has been
delivered so far. -/
structure WsClient where
  id : Nat
  readyState : ReadyState
  sendFails : Bool
  inbox : List WsPayload
deriving DecidableEq, Repr

/-- The `sensor_reading` broadcast payload built by `broadcastToClients`. -/
def sensorPayload (sensorData : SensorRecord) (now : String) : WsPayload :=
  { type := "sensor_reading", data := some sensorData, timestamp := now }

/-- One iteration of the `connectedClients.forEach` loop in
`broadcastToClients`: a client with `readyState === WebSocket.OPEN` is sent
the payload inside a try/catch (success increments `successCount`, a thrown
send increments `failCount` — the exception never escapes the loop); any
other client is skipped. -/
def sendOne (payload : WsPayload) (acc : List WsClient × Nat × Nat) (c : WsClient) :
    List WsClient × Nat × Nat :=
  if c.readyState = ReadyState.OPEN then
    if c.sendFails then
      (acc.1 ++ [c], acc.2.1, acc.2.2 + 1)
    else
      (acc.1 ++ [{ c with inbox := c.inbox ++ [payload] }], acc.2.1 + 1, acc.2.2)
  else
    (acc.1 ++ [c], acc.2.1, acc.2.2)

/-- `broadcastToClients(sensorData)`: iterate over all connected clients,
delivering the payload to each open client, catching per-client send failures
locally; returns the clients (with updated inboxes) and the
`successCount` / `failCount` pair. -/
def broadcastToClients (payload : WsPayload) (clients : List WsClient) :
    List WsClient × Nat × Nat :=
  clients.foldl (sendOne payload) ([], 0, 0)

/-- The effect of one broadcast on one client, in isolation. -/
def deliverOne (payload : WsPayload) (c : WsClient) : WsClient :=
  if c.readyState = ReadyState.OPEN then
    if c.sendFails then c
    else { c with inbox := c.inbox ++ [payload] }
  else c

/-- Open client with a working socket (counted in `successCount`). -/
def sendOk (c : WsClient) : Bool :=
  decide (c.readyState = ReadyState.OPEN) && !c.sendFails

/-- Open client whose `send` throws (counted in `failCount`). -/
def sendBad (c : WsClient) : Bool :=
  decide (c.readyState = ReadyState.OPEN) && c.sendFails

/-- `ws.on('close')`: the client is removed from `connectedClients`. -/
def handleClose (c : WsClient) (clients : List WsClient) : List WsClient :=
  clients.filter (fun x => x.id ≠ c.id)

/-- The `pong` reply sent on a `ping` message. -/
def pongPayload (now : String) : WsPayload :=
  { type := "pong", data := none, timestamp := now }

/-- `ws.on('message')` handler body: parse the data (`none` models malformed
data on which `JSON.parse` throws and the catch block only logs; `some t`
models a parsed object whose `type` is `t`); on `type === 'ping'` a `pong`
is sent back; everything else is only logged.  The client set is untouched. -/
def handleSocketMessage (parsed : Option String) (now : String) (c : WsClient) : WsClient :=
  match parsed with
  | none => c
  | some t => if t = "ping" then { c with inbox := c.inbox ++ [pongPayload now] } else c

/-! ## services/sensor.service.js and routes/sensor.routes.js -/

/-- The mutable state the ingestion path touches: the data store, the CSV
audit log (one entry per accepted reading), and the hub's connected clients. -/
structure SysState where
  store : DataStore
  csvLog : List SensorRecord
  clients : List WsClient
deriving DecidableEq, Repr

/-- `if (!sensorData.timestamp) sensorData.timestamp = new Date().toISOString()`
— fill the timestamp with the current instant when the field is absent or
falsy. -/
def fillTimestamp (now : String) (r : SensorRecord) : SensorRecord :=
  match r.timestamp with
  | none => { r with timestamp := some (JVal.str now) }
  | some v => if v.truthy then r else { r with timestamp := some (JVal.str now) }

/-- `handleSensorData(sensorData)`: default the timestamp, `addReading` into
the store, append to the CSV log, broadcast to the WebSocket clients, and
return `success` with the store's current reading count. -/
def handleSensorData (now : String) (sensorData : SensorRecord) (st : SysState) :
    (Bool × Nat) × SysState :=
  let r := fillTimestamp now sensorData
  let store := addReading r st.store
  let csv := st.csvLog ++ [r]
  let b := broadcastToClients (sensorPayload r now) st.clients
  ((true, store.readings.length), { store := store, csvLog := csv, clients := b.1 })

/-- Response of `POST /api/sensor/data`: HTTP 200 with the reading count, or
HTTP 400 (`InvalidReading`) with the list of missing required fields. -/
inductive PostResponse where
  | ok (readingCount : Nat)
  | invalidReading (missing : List String)
deriving DecidableEq, Repr

/-- `router.post('/data')`: compute the missing required fields; if any,
reject with status 400 and the missing list, leaving all state untouched;
otherwise run `handleSensorData` and answer 200 with its reading count. -/
def postData (now : String) (body : SensorRecord) (st : SysState) :
    PostResponse × SysState :=
  let missing := missingFields body
  if missing.length > 0 then
    (PostResponse.invalidReading missing, st)
  else
    let result := handleSensorData now body st
    (PostResponse.ok result.1.2, result.2)

/-! ## Concrete test fixtures -/

/-- A fully-populated reading with the given `ppb` value. -/
def mkReading (p : Int) : SensorRecord :=
  { timestamp := some (JVal.str "2024-01-30T10:30:45.123Z"),
    sensor_sn := some (JVal.str "DGS2-001"),
    ppb := some (JVal.num p),
    temperature := some (JVal.num 23),
    humidity := some (JVal.num 65) }

/-- A record with every required field except `timestamp`. -/
def bodyNoTs : SensorRecord :=
  { timestamp := none,
    sensor_sn := some (JVal.str "DGS2-001"),
    ppb := some (JVal.num 45),
    temperature := some (JVal.num 23),
    humidity := some (JVal.num 65) }

/-- A record with every required field except `humidity`. -/
def bodyNoHum : SensorRecord :=
  { timestamp := some (JVal.str "2024-01-30T10:30:45.123Z"),
    sensor_sn := some (JVal.str "DGS2-001"),
    ppb := some (JVal.num 45),
    temperature := some (JVal.num 23),
    humidity := none }

/-- A record with every required field present but with malformed values:
`ppb` is `null` and `humidity` is a non-numeric string. -/
def bodyMalformed : SensorRecord :=
  { timestamp := some (JVal.str "2024-01-30T10:30:45.123Z"),
    sensor_sn := some (JVal.str "DGS2-001"),
    ppb := some JVal.null,
    temperature := some (JVal.num 23),
    humidity := some (JVal.str "not-a-number") }

/-- An open, healthy subscriber. -/
def subA : WsClient :=
  { id := 0, readyState := ReadyState.OPEN, sendFails := false, inbox := [] }

/-- A subscriber whose connection is closed. -/
def subBroken : WsClient :=
  { id := 1, readyState := ReadyState.CLOSED, sendFails := false, inbox := [] }

/-- An open subscriber whose socket throws on `send`. -/
def subFailing : WsClient :=
  { id := 1, readyState := ReadyState.OPEN, sendFails := true, inbox := [] }

/-- A second open, healthy subscriber. -/
def subB : WsClient :=
  { id := 2, readyState := ReadyState.OPEN, sendFails := false, inbox := [] }

/-- A fresh system state: initialized empty store, empty CSV log, one open
subscriber. -/
def st0 : SysState :=
  { store := initializeStorage "2024-01-30T00:00:00.000Z" emptyDataStore,
    csvLog := [],
    clients := [subA] }

/-! ## Helper lemmas -/

theorem addReadingWith_readings (cap : Nat) (r : SensorRecord) (s : DataStore) :
    (addReadingWith cap r s).readings =
      if s.readings.length + 1 > cap then (s.readings ++ [r]).drop 1
      else s.readings ++ [r] := by
  simp only [addReadingWith, List.length_append, List.length_cons, List.length_nil,
    Nat.zero_add]
  split <;> rfl

theorem addReadingWith_total (cap : Nat) (r : SensorRecord) (s : DataStore) :
    (addReadingWith cap r s).metadata.totalReadingsReceived =
      s.metadata.totalReadingsReceived + 1 := by
  simp only [addReadingWith]
  split <;> rfl

theorem addReadingWith_initialized (cap : Nat) (r : SensorRecord) (s : DataStore) :
    (addReadingWith cap r s).metadata.initialized = s.metadata.initialized := by
  simp only [addReadingWith]
  split <;> rfl

/-- Core ring-buffer fact: after appending `rs` to a fresh store of capacity
`cap`, the retained readings are exactly the final `cap`-suffix of `rs`. -/
theorem runStoreWith_readings (cap : Nat) (t : String) (rs : List SensorRecord) :
    (runStoreWith cap t rs).readings = rs.drop (rs.length - cap) := by
  induction rs using List.reverseRecOn with
  | nil => simp [runStoreWith, initializeStorage, emptyDataStore]
  | append_singleton rs r ih =>
    rw [runStoreWith, List.foldl_append] at *
    rw [List.foldl_cons, List.foldl_nil]
    rw [addReadingWith_readings, ih, List.length_drop]
    simp only [List.length_append, List.length_cons, List.length_nil, Nat.zero_add]
    by_cases hc : cap ≤ rs.length
    · have h1 : rs.length - (rs.length - cap) = cap := by omega
      rw [h1]
      rw [if_pos (Nat.lt_succ_self cap)]
      rw [List.drop_append_eq_append_drop, List.drop_append_eq_append_drop,
        List.drop_drop, List.length_drop, h1]
      congr 1
      · congr 1
        omega
      · congr 1
        omega
    · push_neg at hc
      have h0 : rs.length - cap = 0 := by omega
      have h1 : rs.length + 1 - cap = 0 := by omega
      have hno : ¬ (rs.length - (rs.length - cap) + 1 > cap) := by omega
      rw [if_neg hno, h0, h1]
      simp

theorem runStoreWith_total (cap : Nat) (t : String) (rs : List SensorRecord) :
    (runStoreWith cap t rs).metadata.totalReadingsReceived = rs.length := by
  induction rs using List.reverseRecOn with
  | nil => rfl
  | append_singleton rs r ih =>
    rw [runStoreWith, List.foldl_append] at *
    rw [List.foldl_cons, List.foldl_nil, addReadingWith_total, ih]
    simp

theorem getLatestReading_eq (s : DataStore) :
    getLatestReading s = s.readings.getLast? := by
  unfold getLatestReading
  split
  · next h => rw [List.length_eq_zero.mp h]; rfl
  · rfl

theorem addReadingWith_getLast (cap : Nat) (hcap : 0 < cap) (r : SensorRecord)
    (s : DataStore) : (addReadingWith cap r s).readings.getLast? = some r := by
  rw [addReadingWith_readings]
  split
  · next h =>
    rw [List.drop_append_eq_append_drop]
    have h1 : 1 - s.readings.length = 0 := by omega
    rw [h1, List.drop_zero, List.getLast?_append_cons]
    rfl
  · rw [List.getLast?_append_cons]
    rfl

theorem broadcast_foldl (payload : WsPayload) (clients : List WsClient) :
    ∀ acc : List WsClient × Nat × Nat,
      clients.foldl (sendOne payload) acc =
        (acc.1 ++ clients.map (deliverOne payload),
         acc.2.1 + clients.countP sendOk,
         acc.2.2 + clients.countP sendBad) := by
  induction clients with
  | nil => intro acc; simp
  | cons c cs ih =>
    intro acc
    rw [List.foldl_cons, ih]
    simp only [List.map_cons, List.countP_cons, sendOne, deliverOne, sendOk, sendBad]
    by_cases hs : c.readyState = ReadyState.OPEN
    · by_cases hf : c.sendFails
      · simp [hs, hf]
        omega
      · simp [hs, hf]
        omega
    · simp [hs]

/-- A broadcast acts on each client independently and the two counters count
the open-working and open-throwing clients. -/
theorem broadcastToClients_eq (payload : WsPayload) (clients : List WsClient) :
    broadcastToClients payload clients =
      (clients.map (deliverOne payload),
       clients.countP sendOk,
       clients.countP sendBad) := by
  rw [broadcastToClients, broadcast_foldl]
  simp

theorem deliverOne_id (payload : WsPayload) (c : WsClient) :
    (deliverOne payload c).id = c.id := by
  unfold deliverOne
  split
  · split <;> rfl
  · rfl

theorem postData_of_missing (now : String) (body : SensorRecord) (st : SysState)
    (h : 0 < (missingFields body).length) :
    postData now body st = (PostResponse.invalidReading (missingFields body), st) := by
  simp only [postData]
  rw [if_pos h]

theorem postData_of_valid (now : String) (body : SensorRecord) (st : SysState)
    (h : missingFields body = []) :
    postData now body st =
      (PostResponse.ok (addReading (fillTimestamp now body) st.store).readings.length,
       { store := addReading (fillTimestamp now body) st.store,
         csvLog := st.csvLog ++ [fillTimestamp now body],
         clients :=
           (broadcastToClients
             (sensorPayload (fillTimestamp now body) now) st.clients).1 }) := by
  simp only [postData, h, List.length_nil, gt_iff_lt, Nat.lt_irrefl, if_false]
  rfl

/-! ## Claims -/

/-- Claim C1, counterexample: a record with `sensor_sn`, `ppb`, `temperature`
and `humidity` present but `timestamp` absent is NOT accepted by the
ingestion endpoint — the route lists `timestamp` among its required fields
and rejects the request with `InvalidReading (["timestamp"])`, leaving the
state untouched, contrary to the claim that such a reading is accepted with
the timestamp defaulted. -/
theorem C1_timestamp_required_counterexample :
    postData "2024-01-30T10:30:45.123Z" bodyNoTs st0 =
      (PostResponse.invalidReading ["timestamp"], st0) := by
  decide

/-- Claim C1 (amended): the endpoint rejects a record missing `timestamp`
(even when all other required fields are present) with `InvalidReading`
listing `timestamp`; the state is unchanged.  The ingestion-time default
for a missing timestamp lives only in `handleSensorData`, which — when
invoked directly on such a record — fills the timestamp with the current
instant and stores the filled reading. -/
theorem C1_timestamp_rejected_amended (now : String) (body : SensorRecord)
    (st : SysState) (hts : body.timestamp = none)
    (hsn : body.sensor_sn.isSome = true) (hppb : body.ppb.isSome = true)
    (htemp : body.temperature.isSome = true) (hhum : body.humidity.isSome = true) :
    (postData now body st).1 = PostResponse.invalidReading ["timestamp"] ∧
    (postData now body st).2 = st ∧
    (fillTimestamp now body).timestamp = some (JVal.str now) ∧
    (handleSensorData now body st).2.store.readings.getLast? =
      some (fillTimestamp now body) := by
  have hm : missingFields body = ["timestamp"] := by
    simp [missingFields, requiredFields, hasField, hts, hsn, hppb, htemp, hhum]
  have hlen : 0 < (missingFields body).length := by rw [hm]; decide
  refine ⟨?_, ?_, ?_, ?_⟩
  · rw [postData_of_missing now body st hlen, hm]
  · rw [postData_of_missing now body st hlen]
  · simp [fillTimestamp, hts]
  · show (addReading (fillTimestamp now body) st.store).readings.getLast? = _
    exact addReadingWith_getLast MAX_READINGS (by decide) _ _

/-- Witness for the amended claim C1 at a concrete record and state. -/
theorem C1_timestamp_rejected_witness :
    bodyNoTs.timestamp = none ∧
    (postData "2024-01-30T10:30:45.123Z" bodyNoTs st0).1 =
      PostResponse.invalidReading ["timestamp"] :=
  ⟨by decide,
   (C1_timestamp_rejected_amended "2024-01-30T10:30:45.123Z" bodyNoTs st0
     (by decide) (by decide) (by decide) (by decide) (by decide)).1⟩

/-- Claim C2: for more than `capacity` appended readings, `all()` has length
exactly `capacity` and holds exactly the most recent `capacity` readings in
arrival order (the final suffix of the arrival sequence); in the concrete
scenario capacity 3 with ppb 1, 2, 3, 4, `all()` is `[2, 3, 4]` and
`latest()` is the reading with ppb 4. -/
theorem C2_ring_buffer_overflow (cap : Nat) (t : String)
    (rs : List SensorRecord) (h : rs.length > cap) :
    (getAllReadings (runStoreWith cap t rs)).length = cap ∧
    getAllReadings (runStoreWith cap t rs) = rs.drop (rs.length - cap) ∧
    getAllReadings (runStoreWith 3 t [mkReading 1, mkReading 2, mkReading 3, mkReading 4]) =
      [mkReading 2, mkReading 3, mkReading 4] ∧
    getLatestReading (runStoreWith 3 t [mkReading 1, mkReading 2, mkReading 3, mkReading 4]) =
      some (mkReading 4) := by
  refine ⟨?_, ?_, rfl, rfl⟩
  · rw [getAllReadings, runStoreWith_readings, List.length_drop]
    omega
  · rw [getAllReadings, runStoreWith_readings]

/-- Witness for claim C2 at capacity 3 with four appended readings. -/
theorem C2_ring_buffer_overflow_witness :
    ([mkReading 1, mkReading 2, mkReading 3, mkReading 4] : List SensorRecord).length > 3 ∧
    (getAllReadings
      (runStoreWith 3 "t0" [mkReading 1, mkReading 2, mkReading 3, mkReading 4])).length = 3 :=
  ⟨by decide,
   (C2_ring_buffer_overflow 3 "t0" [mkReading 1, mkReading 2, mkReading 3, mkReading 4]
     (by decide)).1⟩

/-- Claim C3: after any sequence of N appends from a fresh store the
`totalReadingsReceived` counter equals N; each `addReading` increments it
unconditionally (eviction never decrements it); and it is distinct from the
current history length (capacity 3, four appends: counter 4, length 3). -/
theorem C3_totalReceived_counts_appends (cap : Nat) (t : String)
    (rs : List SensorRecord) :
    (runStoreWith cap t rs).metadata.totalReadingsReceived = rs.length ∧
    (∀ (s : DataStore) (r : SensorRecord),
      (addReadingWith cap r s).metadata.totalReadingsReceived =
        s.metadata.totalReadingsReceived + 1) ∧
    (runStoreWith 3 t [mkReading 1, mkReading 2, mkReading 3, mkReading 4]).metadata.totalReadingsReceived = 4 ∧
    (runStoreWith 3 t [mkReading 1, mkReading 2, mkReading 3, mkReading 4]).readings.length = 3 :=
  ⟨runStoreWith_total cap t rs, fun s r => addReadingWith_total cap r s, rfl, rfl⟩

/-- Claim C4: for at most `capacity` appended readings, `all()` returns
exactly the appended readings in arrival order and `latest()` is the last
appended reading (`getLast?`, which is `none` — the `Empty` signal — for
zero readings); on a freshly constructed store `latest()` signals `Empty`. -/
theorem C4_under_capacity (cap : Nat) (t : String) (rs : List SensorRecord)
    (h : rs.length ≤ cap) :
    getAllReadings (runStoreWith cap t rs) = rs ∧
    getLatestReading (runStoreWith cap t rs) = rs.getLast? ∧
    getLatestReading (initializeStorage t emptyDataStore) = none := by
  have h0 : rs.length - cap = 0 := Nat.sub_eq_zero_of_le h
  have hr : (runStoreWith cap t rs).readings = rs := by
    rw [runStoreWith_readings, h0, List.drop_zero]
  refine ⟨hr, ?_, rfl⟩
  rw [getLatestReading_eq, hr]

/-- Witness for claim C4 at capacity 3 with two appended readings. -/
theorem C4_under_capacity_witness :
    ([mkReading 1, mkReading 2] : List SensorRecord).length ≤ 3 ∧
    getAllReadings (runStoreWith 3 "t0" [mkReading 1, mkReading 2]) =
      [mkReading 1, mkReading 2] :=
  ⟨by decide, (C4_under_capacity 3 "t0" [mkReading 1, mkReading 2] (by decide)).1⟩

/-- Claim C5: a submitted record missing a required field other than
`timestamp` is rejected with `InvalidReading` carrying the complete list of
missing required fields (the full filter of `requiredFields`, so every
absent field is listed, not only the first); the state — store, counters and
subscribers alike — is returned unchanged, so nothing is appended and no
broadcast is delivered. -/
theorem C5_reject_missing_fields (now : String) (body : SensorRecord)
    (st : SysState) (f : String) (hf : f ∈ requiredFields)
    (hft : f ≠ "timestamp") (hmiss : hasField body f = false) :
    (postData now body st).1 =
      PostResponse.invalidReading
        (requiredFields.filter (fun g => !(hasField body g))) ∧
    (postData now body st).2 = st ∧
    (postData now body st).2.store = st.store ∧
    (postData now body st).2.clients = st.clients ∧
    f ∈ missingFields body ∧
    (∀ g ∈ requiredFields, hasField body g = false → g ∈ missingFields body) := by
  have hmem : f ∈ missingFields body :=
    List.mem_filter.mpr ⟨hf, by simp [hmiss]⟩
  have hlen : 0 < (missingFields body).length :=
    List.length_pos.mpr (List.ne_nil_of_mem hmem)
  rw [postData_of_missing now body st hlen]
  exact ⟨rfl, rfl, rfl, rfl, hmem,
    fun g hg hgf => List.mem_filter.mpr ⟨hg, by simp [hgf]⟩⟩

/-- Witness for claim C5: a record missing only `humidity` is rejected with
the missing list and the state is unchanged. -/
theorem C5_reject_missing_fields_witness :
    hasField bodyNoHum "humidity" = false ∧
    (postData "2024-01-30T10:30:45.123Z" bodyNoHum st0).1 =
      PostResponse.invalidReading
        (requiredFields.filter (fun g => !(hasField bodyNoHum g))) ∧
    (postData "2024-01-30T10:30:45.123Z" bodyNoHum st0).2 = st0 :=
  ⟨by decide,
   (C5_reject_missing_fields "2024-01-30T10:30:45.123Z" bodyNoHum st0 "humidity"
     (by decide) (by decide) (by decide)).1,
   (C5_reject_missing_fields "2024-01-30T10:30:45.123Z" bodyNoHum st0 "humidity"
     (by decide) (by decide) (by decide)).2.1⟩

/-- Claim C6: a broadcast acts on every subscriber independently — the
resulting client list is the pointwise `deliverOne` map, so one subscriber's
closed connection or throwing send cannot affect delivery to any other open
subscriber — and the per-broadcast success and failure counts are recorded
(`broadcastToClients` is a total function, so no exception reaches the
caller).  Concretely, with three registered subscribers of which the middle
one is closed (resp. has a throwing socket), the other two still receive the
payload and the recorded counts are 2 successes (resp. 2 successes and 1
failure). -/
theorem C6_broadcast_partial_failure_isolation (payload : WsPayload)
    (clients : List WsClient) :
    (broadcastToClients payload clients).1 = clients.map (deliverOne payload) ∧
    (broadcastToClients payload clients).2.1 = clients.countP sendOk ∧
    (broadcastToClients payload clients).2.2 = clients.countP sendBad ∧
    (broadcastToClients payload [subA, subBroken, subB]).1 =
      [{ subA with inbox := [payload] }, subBroken, { subB with inbox := [payload] }] ∧
    (broadcastToClients payload [subA, subBroken, subB]).2.1 = 2 ∧
    (broadcastToClients payload [subA, subFailing, subB]).1 =
      [{ subA with inbox := [payload] }, subFailing, { subB with inbox := [payload] }] ∧
    (broadcastToClients payload [subA, subFailing, subB]).2 = (2, 1) := by
  rw [broadcastToClients_eq]
  exact ⟨rfl, rfl, rfl, rfl, rfl, rfl, rfl⟩

/-- Claim C7: for a record that passes validation, the ingestion endpoint's
final store is exactly `addReading` of the (timestamp-filled) reading on the
prior store — computed before and independently of the broadcast, which is
applied to the prior subscriber list — so `latest()` already returns the new
reading during and after the broadcast, and the response is the updated
current reading count of that store. -/
theorem C7_append_before_broadcast (now : String) (body : SensorRecord)
    (st : SysState) (h : missingFields body = []) :
    (postData now body st).2.store = addReading (fillTimestamp now body) st.store ∧
    getLatestReading (postData now body st).2.store = some (fillTimestamp now body) ∧
    (postData now body st).1 =
      PostResponse.ok ((postData now body st).2.store.readings.length) ∧
    (postData now body st).2.clients =
      (broadcastToClients (sensorPayload (fillTimestamp now body) now) st.clients).1 := by
  rw [postData_of_valid now body st h]
  refine ⟨rfl, ?_, rfl, rfl⟩
  rw [getLatestReading_eq]
  exact addReadingWith_getLast MAX_READINGS (by decide) _ _

/-- Witness for claim C7 at a concrete valid record and state. -/
theorem C7_append_before_broadcast_witness :
    missingFields (mkReading 45) = [] ∧
    (postData "2024-01-30T10:30:45.123Z" (mkReading 45) st0).2.store =
      addReading (fillTimestamp "2024-01-30T10:30:45.123Z" (mkReading 45)) st0.store :=
  ⟨by decide,
   (C7_append_before_broadcast "2024-01-30T10:30:45.123Z" (mkReading 45) st0
     (by decide)).1⟩

/-- Claim C8, counterexample: a subscriber that commits a protocol error
(sends data on which `JSON.parse` throws) does NOT transition to `Closed`
and is NOT removed — the message handler's catch block only logs, the
client is returned unchanged with `readyState` still `OPEN`, and it still
receives the next broadcast, contrary to the claimed
`Open → Closed`-on-protocol-error transition. -/
theorem C8_protocol_error_counterexample :
    handleSocketMessage none "2024-01-30T10:30:46.000Z" subA = subA ∧
    subA.readyState = ReadyState.OPEN ∧
    (broadcastToClients (sensorPayload (mkReading 45) "2024-01-30T10:30:47.000Z")
        [handleSocketMessage none "2024-01-30T10:30:46.000Z" subA]).1 =
      [{ subA with inbox := [sensorPayload (mkReading 45) "2024-01-30T10:30:47.000Z"] }] := by
  exact ⟨rfl, rfl, rfl⟩

/-- Claim C8 (amended): a subscriber leaves the live set only on explicit
disconnect (the `close` event): the message handler never changes a
client's `readyState` or identity (protocol errors are caught and logged,
the client stays registered), `handleClose` removes the subscriber from the
live set, after which no client with its identity exists in any subsequent
broadcast's output; broadcast skips (delivers nothing to) any subscriber
whose state is not `OPEN`, but does not remove it. -/
theorem C8_lifecycle_amended (parsed : Option String) (now : String)
    (c : WsClient) (cs : List WsClient) (p : WsPayload) :
    (handleSocketMessage parsed now c).readyState = c.readyState ∧
    (handleSocketMessage parsed now c).id = c.id ∧
    (∀ x ∈ handleClose c cs, x.id ≠ c.id) ∧
    (∀ x ∈ (broadcastToClients p (handleClose c cs)).1, x.id ≠ c.id) ∧
    (∀ x : WsClient, x.readyState ≠ ReadyState.OPEN → deliverOne p x = x) := by
  refine ⟨?_, ?_, ?_, ?_, ?_⟩
  · cases parsed with
    | none => rfl
    | some t =>
      simp only [handleSocketMessage]
      split <;> rfl
  · cases parsed with
    | none => rfl
    | some t =>
      simp only [handleSocketMessage]
      split <;> rfl
  · intro x hx
    have hmem := List.mem_filter.mp hx
    simpa using hmem.2
  · intro x hx
    rw [broadcastToClients_eq] at hx
    obtain ⟨y, hy, hxy⟩ := List.mem_map.mp hx
    have hmem := List.mem_filter.mp hy
    rw [← hxy, deliverOne_id]
    simpa using hmem.2
  · intro x hx
    unfold deliverOne
    rw [if_neg hx]

/-- Witness for the amended claim C8 at concrete subscribers. -/
theorem C8_lifecycle_witness :
    handleClose subA [subA, subB] = [subB] ∧
    deliverOne (pongPayload "2024-01-30T10:30:46.000Z") subBroken = subBroken :=
  ⟨by decide,
   (C8_lifecycle_amended none "2024-01-30T10:30:46.000Z" subA [subA, subB]
     (pongPayload "2024-01-30T10:30:46.000Z")).2.2.2.2 subBroken (by decide)⟩

/-- Claim C9, counterexample: a record whose required fields are all present
but with malformed values (`ppb` is `null`, `humidity` a non-numeric string)
is NOT rejected — presence is the only check, so the endpoint accepts it and
the malformed record enters the store, contrary to the claimed well-formed
value validation. -/
theorem C9_malformed_value_counterexample :
    (postData "2024-01-30T10:30:48.000Z" bodyMalformed st0).1 = PostResponse.ok 1 ∧
    (postData "2024-01-30T10:30:48.000Z" bodyMalformed st0).2.store.readings =
      [bodyMalformed] := by
  exact ⟨by decide, by decide⟩

/-- Claim C9 (amended): the validator checks only the presence of the
required fields: whatever values the five required fields carry — well
formed or malformed — validation passes, the endpoint accepts the record
and it enters the store (no value well-formedness check and no numeric
range check is performed). -/
theorem C9_presence_only_amended (now : String) (st : SysState)
    (v1 v2 v3 v4 v5 : JVal) :
    missingFields
      { timestamp := some v1, sensor_sn := some v2, ppb := some v3,
        temperature := some v4, humidity := some v5 } = [] ∧
    (postData now
      { timestamp := some v1, sensor_sn := some v2, ppb := some v3,
        temperature := some v4, humidity := some v5 } st).1 =
      PostResponse.ok
        ((addReading (fillTimestamp now
          { timestamp := some v1, sensor_sn := some v2, ppb := some v3,
            temperature := some v4, humidity := some v5 }) st.store).readings.length) ∧
    (postData now
      { timestamp := some v1, sensor_sn := some v2, ppb := some v3,
        temperature := some v4, humidity := some v5 } st).2.store.readings.getLast? =
      some (fillTimestamp now
        { timestamp := some v1, sensor_sn := some v2, ppb := some v3,
          temperature := some v4, humidity := some v5 }) := by
  have hm : missingFields
      { timestamp := some v1, sensor_sn := some v2, ppb := some v3,
        temperature := some v4, humidity := some v5 } = ([] : List String) := rfl
  refine ⟨hm, ?_, ?_⟩
  · rw [postData_of_valid _ _ _ hm]
  · rw [postData_of_valid _ _ _ hm]
    exact addReadingWith_getLast MAX_READINGS (by decide) _ _

/-- Claim C10: `clear()` empties the readings (subsequent `all()` is empty
and `latest()` signals `Empty`) and leaves every other part of the store
state unchanged — in particular `totalReadingsReceived` and `initialized`
keep their prior values. -/
theorem C10_clear_frame (s : DataStore) :
    (clearReadings s).readings = [] ∧
    getAllReadings (clearReadings s) = [] ∧
    getLatestReading (clearReadings s) = none ∧
    (clearReadings s).metadata.totalReadingsReceived =
      s.metadata.totalReadingsReceived ∧
    (clearReadings s).metadata.initialized = s.metadata.initialized :=
  ⟨rfl, rfl, rfl, rfl, rfl⟩
